import Mathlib

/-!
Verification of the pixijs-v8 demo repository's geometry, viewport and
state-container logic.

The embedding follows the JavaScript source:
* `src/pixiv8-my/utils/geometry.js` (calculatePolygonCenter, calculateGeometricCenter)
* `src/pixiv8-my/controls/ViewportController.js` (handleWheel, zoomIn, zoomOut,
  zoomTo, fitToContent, pan, reset)
* `src/pixiv8-1/utils/constants.js` (VIEWPORT_CONFIG, GRAPHICS_CONFIG)
* `src/graphics/FactoryRenderer.js` (create, scaleAndCenter)
* the StateManager class (setState / notifySubscribers / subscribe)

JavaScript numbers are modelled by exact rationals; thrown exceptions by
`Except String`.
-/

/-- A 2D point, the `{x, y}` objects used throughout the source. -/
structure Point where
  x : ℚ
  y : ℚ
deriving DecidableEq, Repr

/-- `Math.abs` on rationals. -/
def jsAbs (q : ℚ) : ℚ := if q < 0 then -q else q

/-- `Math.max` on rationals. -/
def jsMax (a b : ℚ) : ℚ := if a < b then b else a

/-- `Math.min` on rationals. -/
def jsMin (a b : ℚ) : ℚ := if a < b then a else b

theorem jsAbs_eq (q : ℚ) : jsAbs q = |q| := by
  unfold jsAbs
  split_ifs with h
  · exact (abs_of_neg h).symm
  · exact (abs_of_nonneg (not_lt.mp h)).symm

theorem jsMax_eq (a b : ℚ) : jsMax a b = max a b := by
  unfold jsMax
  split_ifs with h
  · exact (max_eq_right h.le).symm
  · exact (max_eq_left (not_lt.mp h)).symm

theorem jsMin_eq (a b : ℚ) : jsMin a b = min a b := by
  unfold jsMin
  split_ifs with h
  · exact (min_eq_left h.le).symm
  · exact (min_eq_right (not_lt.mp h)).symm

/-- One pass of the shoelace loop of `calculatePolygonCenter` (geometry.js
lines 16-27): accumulates `(area, centerX, centerY)` over all index pairs
`(i, (i+1) % n)`. -/
def shoelaceFold (points : List Point) : ℚ × ℚ × ℚ :=
  (List.range points.length).foldl
    (fun acc i =>
      let pi := points.getD i ⟨0, 0⟩
      let pj := points.getD ((i + 1) % points.length) ⟨0, 0⟩
      let cross := pi.x * pj.y - pj.x * pi.y
      (acc.1 + cross, acc.2.1 + (pi.x + pj.x) * cross, acc.2.2 + (pi.y + pj.y) * cross))
    (0, 0, 0)

/-- `calculatePolygonCenter` from geometry.js: throws on fewer than 3
points, otherwise computes the shoelace centroid, falling back to the
arithmetic vertex mean when the accumulated signed area is below `1e-10`
in absolute value. -/
def calculatePolygonCenter (points : List Point) : Except String Point :=
  if points.length < 3 then
    Except.error "polygon requires at least 3 vertices"
  else
    let acc := shoelaceFold points
    let area := acc.1 / 2
    if jsAbs area < 1 / 10000000000 then
      let centerX := (points.foldl (fun sum p => sum + p.x) 0) / (points.length : ℚ)
      let centerY := (points.foldl (fun sum p => sum + p.y) 0) / (points.length : ℚ)
      Except.ok ⟨centerX, centerY⟩
    else
      Except.ok ⟨acc.2.1 / (6 * area), acc.2.2 / (6 * area)⟩

/-- `calculateGeometricCenter` from geometry.js: throws on an empty list,
otherwise returns the arithmetic mean of the vertex coordinates. -/
def calculateGeometricCenter (points : List Point) : Except String Point :=
  if points.length = 0 then
    Except.error "vertex array must not be empty"
  else
    let sumX := points.foldl (fun sum p => sum + p.x) 0
    let sumY := points.foldl (fun sum p => sum + p.y) 0
    Except.ok ⟨sumX / (points.length : ℚ), sumY / (points.length : ℚ)⟩

namespace GRAPHICS_CONFIG

/-- `GRAPHICS_CONFIG.DEFAULT_POLYGON_POINTS` from constants.js. -/
def DEFAULT_POLYGON_POINTS : List Point :=
  [⟨50, 10⟩, ⟨90, 30⟩, ⟨80, 70⟩, ⟨40, 90⟩, ⟨10, 60⟩, ⟨20, 20⟩]

/-- `GRAPHICS_CONFIG.FACTORY_POINTS` from constants.js. -/
def FACTORY_POINTS : List Point :=
  [⟨50, 50⟩, ⟨150, 50⟩, ⟨150, 100⟩, ⟨120, 100⟩,
   ⟨120, 150⟩, ⟨180, 150⟩, ⟨180, 170⟩, ⟨50, 170⟩,
   ⟨50, 150⟩, ⟨20, 150⟩, ⟨20, 100⟩, ⟨10, 100⟩,
   ⟨10, 30⟩, ⟨60, 30⟩, ⟨60, 50⟩, ⟨165, 20⟩,
   ⟨185, 20⟩, ⟨185, 70⟩, ⟨165, 70⟩]

end GRAPHICS_CONFIG

/-- C3: Counterexample to the regression fixture. On the default hexagon the
shoelace centroid computed by `calculatePolygonCenter` is
`(6320/129, 2065/43) ≈ (48.99, 48.02)`; both coordinates exceed the claimed
`(47.8, 47.0)` by more than 1, so the result is not approximately
`(47.8, 47.0)`. -/
theorem hexagon_centroid_counterexample :
    calculatePolygonCenter GRAPHICS_CONFIG.DEFAULT_POLYGON_POINTS =
      Except.ok ⟨6320 / 129, 2065 / 43⟩ ∧
    (47.8 : ℚ) + 1 < 6320 / 129 ∧ (47.0 : ℚ) + 1 < 2065 / 43 := by
  refine ⟨?_, by norm_num, by norm_num⟩
  simp only [calculatePolygonCenter, shoelaceFold, GRAPHICS_CONFIG.DEFAULT_POLYGON_POINTS, jsAbs]
  norm_num [List.range_succ, List.getD]

/-- C3 (amended): applying `calculatePolygonCenter` to the default hexagon
vertex list returns exactly `(6320/129, 2065/43)`, which is approximately
`(49.0, 48.0)` (within 0.03 of it), not approximately `(47.8, 47.0)`. -/
theorem hexagon_centroid_value :
    calculatePolygonCenter GRAPHICS_CONFIG.DEFAULT_POLYGON_POINTS =
      Except.ok ⟨6320 / 129, 2065 / 43⟩ ∧
    (49 : ℚ) - 1 / 100 < 6320 / 129 ∧ (6320 : ℚ) / 129 < 49 + 1 / 100 ∧
    (48 : ℚ) - 3 / 100 < 2065 / 43 ∧ (2065 : ℚ) / 43 < 48 + 3 / 100 := by
  refine ⟨?_, by norm_num, by norm_num, by norm_num, by norm_num⟩
  simp only [calculatePolygonCenter, shoelaceFold, GRAPHICS_CONFIG.DEFAULT_POLYGON_POINTS, jsAbs]
  norm_num [List.range_succ, List.getD]

/-- C5: `calculatePolygonCenter` throws a degenerate-input error exactly when
given fewer than 3 points, and `calculateGeometricCenter` exactly when given
the empty list; in every other case both return a point normally. -/
theorem degenerate_input_errors (ps : List Point) :
    ((∃ e, calculatePolygonCenter ps = Except.error e) ↔ ps.length < 3) ∧
    ((∃ c, calculatePolygonCenter ps = Except.ok c) ↔ 3 ≤ ps.length) ∧
    ((∃ e, calculateGeometricCenter ps = Except.error e) ↔ ps = []) ∧
    ((∃ c, calculateGeometricCenter ps = Except.ok c) ↔ ps ≠ []) := by
  refine ⟨?_, ?_, ?_, ?_⟩
  · simp only [calculatePolygonCenter]
    split_ifs with h1 h2 <;> simp [h1]
  · simp only [calculatePolygonCenter]
    split_ifs with h1 h2 <;> simp <;> omega
  · simp only [calculateGeometricCenter]
    split_ifs with h1 <;> simp [List.length_eq_zero] at h1 ⊢ <;> simp [h1]
  · simp only [calculateGeometricCenter]
    split_ifs with h1 <;> simp [List.length_eq_zero] at h1 ⊢ <;> simp [h1]

/-- C4: Collinear fallback equivalence. For every list of at least 3 points,
when the accumulated signed shoelace area is below `1e-10` in absolute value,
`calculatePolygonCenter` returns exactly the output of
`calculateGeometricCenter` on the same list; otherwise it returns the
shoelace moments divided by `6` times the signed area. -/
theorem collinear_fallback_equiv (ps : List Point) (h : 3 ≤ ps.length) :
    (jsAbs ((shoelaceFold ps).1 / 2) < 1 / 10000000000 →
      calculatePolygonCenter ps = calculateGeometricCenter ps) ∧
    (1 / 10000000000 ≤ jsAbs ((shoelaceFold ps).1 / 2) →
      calculatePolygonCenter ps =
        Except.ok ⟨(shoelaceFold ps).2.1 / (6 * ((shoelaceFold ps).1 / 2)),
                   (shoelaceFold ps).2.2 / (6 * ((shoelaceFold ps).1 / 2))⟩) := by
  have hlen : ¬ ps.length < 3 := by omega
  have hne : ¬ ps.length = 0 := by omega
  constructor
  · intro hA
    simp only [calculatePolygonCenter, calculateGeometricCenter,
      if_neg hlen, if_neg hne, if_pos hA]
  · intro hA
    have hA2 : ¬ jsAbs ((shoelaceFold ps).1 / 2) < 1 / 10000000000 := not_lt.mpr hA
    simp only [calculatePolygonCenter, if_neg hlen, if_neg hA2]

/-- C4 witness: the collinear list `[(0,0),(1,1),(2,2)]` falls back to the
vertex average, and the default hexagon takes the shoelace branch. -/
theorem collinear_fallback_equiv_witness :
    (calculatePolygonCenter [⟨0, 0⟩, ⟨1, 1⟩, ⟨2, 2⟩] =
      calculateGeometricCenter [⟨0, 0⟩, ⟨1, 1⟩, ⟨2, 2⟩]) ∧
    (calculatePolygonCenter GRAPHICS_CONFIG.DEFAULT_POLYGON_POINTS =
      Except.ok
        ⟨(shoelaceFold GRAPHICS_CONFIG.DEFAULT_POLYGON_POINTS).2.1 /
            (6 * ((shoelaceFold GRAPHICS_CONFIG.DEFAULT_POLYGON_POINTS).1 / 2)),
         (shoelaceFold GRAPHICS_CONFIG.DEFAULT_POLYGON_POINTS).2.2 /
            (6 * ((shoelaceFold GRAPHICS_CONFIG.DEFAULT_POLYGON_POINTS).1 / 2))⟩) := by
  constructor
  · refine (collinear_fallback_equiv _ (by simp)).1 ?_
    simp only [shoelaceFold, jsAbs]
    norm_num [List.range_succ, List.getD]
  · refine (collinear_fallback_equiv _ (by simp [GRAPHICS_CONFIG.DEFAULT_POLYGON_POINTS])).2 ?_
    simp only [shoelaceFold, jsAbs, GRAPHICS_CONFIG.DEFAULT_POLYGON_POINTS]
    norm_num [List.range_succ, List.getD]

namespace VIEWPORT_CONFIG

/-- `VIEWPORT_CONFIG.MIN_SCALE` from constants.js. -/
def MIN_SCALE : ℚ := 0.1

/-- `VIEWPORT_CONFIG.MAX_SCALE` from constants.js. -/
def MAX_SCALE : ℚ := 5

/-- `VIEWPORT_CONFIG.DEFAULT_SCALE` from constants.js. -/
def DEFAULT_SCALE : ℚ := 1

/-- `VIEWPORT_CONFIG.ZOOM_IN_FACTOR` from constants.js. -/
def ZOOM_IN_FACTOR : ℚ := 1.2

/-- `VIEWPORT_CONFIG.ZOOM_OUT_FACTOR` from constants.js. -/
def ZOOM_OUT_FACTOR : ℚ := 0.8

/-- `VIEWPORT_CONFIG.WHEEL_ZOOM_IN_FACTOR` from constants.js. -/
def WHEEL_ZOOM_IN_FACTOR : ℚ := 1.1

/-- `VIEWPORT_CONFIG.WHEEL_ZOOM_OUT_FACTOR` from constants.js. -/
def WHEEL_ZOOM_OUT_FACTOR : ℚ := 0.9

end VIEWPORT_CONFIG

/-- The `{x, y, scale}` viewport record held by the StateManager. -/
structure Viewport where
  x : ℚ
  y : ℚ
  scale : ℚ
deriving DecidableEq, Repr

/-- The mathematical core of `ViewportController.handleWheel` (lines 84-126):
`mouse` is the wheel position in canvas coordinates and `deltaYPos` the sign
test `event.deltaY > 0`. The new scale is the wheel factor applied to the
current scale, clamped to `[MIN_SCALE, MAX_SCALE]`; if it equals the current
scale the handler returns early, otherwise the offset is recomputed so the
world point under the mouse stays fixed. -/
def handleWheel (v : Viewport) (mouse : Point) (deltaYPos : Bool) : Viewport :=
  let scaleFactor := if deltaYPos then VIEWPORT_CONFIG.WHEEL_ZOOM_OUT_FACTOR
                     else VIEWPORT_CONFIG.WHEEL_ZOOM_IN_FACTOR
  let newScale := jsMax VIEWPORT_CONFIG.MIN_SCALE
    (jsMin VIEWPORT_CONFIG.MAX_SCALE (v.scale * scaleFactor))
  if newScale = v.scale then v
  else
    let worldX := (mouse.x - v.x) / v.scale
    let worldY := (mouse.y - v.y) / v.scale
    { scale := newScale, x := mouse.x - worldX * newScale, y := mouse.y - worldY * newScale }

/-- `ViewportController.zoomIn` (lines 211-235): zooms by `ZOOM_IN_FACTOR`
toward the canvas center, the new scale clamped above by `MAX_SCALE` only. -/
def zoomIn (v : Viewport) (canvasWidth canvasHeight : ℚ) : Viewport :=
  let centerX := canvasWidth / 2
  let centerY := canvasHeight / 2
  let newScale := jsMin VIEWPORT_CONFIG.MAX_SCALE (v.scale * VIEWPORT_CONFIG.ZOOM_IN_FACTOR)
  if newScale = v.scale then v
  else
    let worldX := (centerX - v.x) / v.scale
    let worldY := (centerY - v.y) / v.scale
    { scale := newScale, x := centerX - worldX * newScale, y := centerY - worldY * newScale }

/-- `ViewportController.zoomOut` (lines 240-264): zooms by `ZOOM_OUT_FACTOR`
toward the canvas center, the new scale clamped below by `MIN_SCALE` only. -/
def zoomOut (v : Viewport) (canvasWidth canvasHeight : ℚ) : Viewport :=
  let centerX := canvasWidth / 2
  let centerY := canvasHeight / 2
  let newScale := jsMax VIEWPORT_CONFIG.MIN_SCALE (v.scale * VIEWPORT_CONFIG.ZOOM_OUT_FACTOR)
  if newScale = v.scale then v
  else
    let worldX := (centerX - v.x) / v.scale
    let worldY := (centerY - v.y) / v.scale
    { scale := newScale, x := centerX - worldX * newScale, y := centerY - worldY * newScale }

/-- `ViewportController.zoomTo` (lines 306-330): zooms to an absolute target
scale clamped to `[MIN_SCALE, MAX_SCALE]` toward `center`, defaulting to the
canvas center when `center` is `null`. -/
def zoomTo (v : Viewport) (scale : ℚ) (center : Option Point)
    (canvasWidth canvasHeight : ℚ) : Viewport :=
  let targetScale := jsMax VIEWPORT_CONFIG.MIN_SCALE (jsMin VIEWPORT_CONFIG.MAX_SCALE scale)
  let centerX := match center with | some c => c.x | none => canvasWidth / 2
  let centerY := match center with | some c => c.y | none => canvasHeight / 2
  let worldX := (centerX - v.x) / v.scale
  let worldY := (centerY - v.y) / v.scale
  { scale := targetScale, x := centerX - worldX * targetScale, y := centerY - worldY * targetScale }

/-- A `{x, y, width, height}` bounds record, as produced by `getBounds()`. -/
structure Bounds where
  x : ℚ
  y : ℚ
  width : ℚ
  height : ℚ
deriving DecidableEq, Repr

/-- `ViewportController.fitToContent` (lines 337-365): picks the scale that
fits `bounds` into the canvas with the given padding, clamps it to
`[MIN_SCALE, MAX_SCALE]`, and centers the content (the offset uses the
unclamped scale, exactly as in the source). -/
def fitToContent (bounds : Bounds) (padding canvasWidth canvasHeight : ℚ) : Viewport :=
  let scaleX := (canvasWidth * (1 - padding * 2)) / bounds.width
  let scaleY := (canvasHeight * (1 - padding * 2)) / bounds.height
  let scale := jsMin scaleX scaleY
  let centerX := canvasWidth / 2
  let centerY := canvasHeight / 2
  let contentCenterX := bounds.x + bounds.width / 2
  let contentCenterY := bounds.y + bounds.height / 2
  { scale := jsMax VIEWPORT_CONFIG.MIN_SCALE (jsMin VIEWPORT_CONFIG.MAX_SCALE scale),
    x := centerX - contentCenterX * scale,
    y := centerY - contentCenterY * scale }

/-- `ViewportController.pan` (lines 287-299): adds the deltas to the offset,
without any clamping. -/
def pan (v : Viewport) (deltaX deltaY : ℚ) : Viewport :=
  { v with x := v.x + deltaX, y := v.y + deltaY }

/-- `ViewportController.reset` (lines 269-280): restores offset `(0,0)` and
the default scale. -/
def resetViewport : Viewport :=
  { x := 0, y := 0, scale := VIEWPORT_CONFIG.DEFAULT_SCALE }

/-- The world coordinate a screen point corresponds to under a viewport
transform: `world = (screen - offset) / scale`. -/
def worldOf (v : Viewport) (p : Point) : Point :=
  ⟨(p.x - v.x) / v.scale, (p.y - v.y) / v.scale⟩

/-- One user-visible viewport operation of ViewportController. -/
inductive ViewportOp where
  | wheel (mouse : Point) (deltaYPos : Bool)
  | zoomInOp (canvasWidth canvasHeight : ℚ)
  | zoomOutOp (canvasWidth canvasHeight : ℚ)
  | zoomToOp (scale : ℚ) (center : Option Point) (canvasWidth canvasHeight : ℚ)
  | fitToContentOp (bounds : Bounds) (padding canvasWidth canvasHeight : ℚ)
  | panOp (deltaX deltaY : ℚ)
  | resetOp

/-- Dispatch of a viewport operation to its handler. -/
def applyOp (v : Viewport) (op : ViewportOp) : Viewport :=
  match op with
  | ViewportOp.wheel mouse deltaYPos => handleWheel v mouse deltaYPos
  | ViewportOp.zoomInOp cw ch => zoomIn v cw ch
  | ViewportOp.zoomOutOp cw ch => zoomOut v cw ch
  | ViewportOp.zoomToOp s c cw ch => zoomTo v s c cw ch
  | ViewportOp.fitToContentOp b pad cw ch => fitToContent b pad cw ch
  | ViewportOp.panOp dx dy => pan v dx dy
  | ViewportOp.resetOp => resetViewport

theorem handleWheel_scale (v : Viewport) (mouse : Point) (deltaYPos : Bool) :
    (handleWheel v mouse deltaYPos).scale =
      jsMax VIEWPORT_CONFIG.MIN_SCALE (jsMin VIEWPORT_CONFIG.MAX_SCALE
        (v.scale * (if deltaYPos then VIEWPORT_CONFIG.WHEEL_ZOOM_OUT_FACTOR
                    else VIEWPORT_CONFIG.WHEEL_ZOOM_IN_FACTOR))) := by
  simp only [handleWheel]
  split_ifs with h1 h2 h3 <;> simp_all

theorem zoomIn_scale (v : Viewport) (cw ch : ℚ) :
    (zoomIn v cw ch).scale =
      jsMin VIEWPORT_CONFIG.MAX_SCALE (v.scale * VIEWPORT_CONFIG.ZOOM_IN_FACTOR) := by
  simp only [zoomIn]
  split_ifs with h
  · exact h.symm
  · rfl

theorem zoomOut_scale (v : Viewport) (cw ch : ℚ) :
    (zoomOut v cw ch).scale =
      jsMax VIEWPORT_CONFIG.MIN_SCALE (v.scale * VIEWPORT_CONFIG.ZOOM_OUT_FACTOR) := by
  simp only [zoomOut]
  split_ifs with h
  · exact h.symm
  · rfl

theorem applyOp_scale_bounds (v : Viewport) (op : ViewportOp)
    (h1 : VIEWPORT_CONFIG.MIN_SCALE ≤ v.scale) (h2 : v.scale ≤ VIEWPORT_CONFIG.MAX_SCALE) :
    VIEWPORT_CONFIG.MIN_SCALE ≤ (applyOp v op).scale ∧
    (applyOp v op).scale ≤ VIEWPORT_CONFIG.MAX_SCALE := by
  have hmm : VIEWPORT_CONFIG.MIN_SCALE ≤ VIEWPORT_CONFIG.MAX_SCALE := by
    norm_num [VIEWPORT_CONFIG.MIN_SCALE, VIEWPORT_CONFIG.MAX_SCALE]
  cases op with
  | wheel mouse deltaYPos =>
    rw [applyOp, handleWheel_scale, jsMax_eq, jsMin_eq]
    exact ⟨le_max_left _ _, max_le hmm (min_le_left _ _)⟩
  | zoomInOp cw ch =>
    rw [applyOp, zoomIn_scale, jsMin_eq]
    refine ⟨le_min hmm ?_, min_le_left _ _⟩
    norm_num [VIEWPORT_CONFIG.MIN_SCALE, VIEWPORT_CONFIG.ZOOM_IN_FACTOR] at h1 ⊢
    linarith
  | zoomOutOp cw ch =>
    rw [applyOp, zoomOut_scale, jsMax_eq]
    refine ⟨le_max_left _ _, max_le hmm ?_⟩
    norm_num [VIEWPORT_CONFIG.MAX_SCALE, VIEWPORT_CONFIG.ZOOM_OUT_FACTOR] at h2 ⊢
    linarith
  | zoomToOp s c cw ch =>
    have : (applyOp v (ViewportOp.zoomToOp s c cw ch)).scale =
        jsMax VIEWPORT_CONFIG.MIN_SCALE (jsMin VIEWPORT_CONFIG.MAX_SCALE s) := rfl
    rw [this, jsMax_eq, jsMin_eq]
    exact ⟨le_max_left _ _, max_le hmm (min_le_left _ _)⟩
  | fitToContentOp b pad cw ch =>
    have : (applyOp v (ViewportOp.fitToContentOp b pad cw ch)).scale =
        jsMax VIEWPORT_CONFIG.MIN_SCALE (jsMin VIEWPORT_CONFIG.MAX_SCALE
          (jsMin ((cw * (1 - pad * 2)) / b.width) ((ch * (1 - pad * 2)) / b.height))) := rfl
    rw [this, jsMax_eq, jsMin_eq]
    exact ⟨le_max_left _ _, max_le hmm (min_le_left _ _)⟩
  | panOp dx dy =>
    exact ⟨h1, h2⟩
  | resetOp =>
    constructor <;>
      norm_num [applyOp, resetViewport, VIEWPORT_CONFIG.MIN_SCALE,
        VIEWPORT_CONFIG.MAX_SCALE, VIEWPORT_CONFIG.DEFAULT_SCALE]

/-- C2: Scale clamping invariant. Starting from any viewport whose scale lies
in `[MIN_SCALE, MAX_SCALE] = [0.1, 5]`, every sequence of viewport operations
(wheel zoom, zoomIn, zoomOut, zoomTo, fitToContent, pan, reset) leaves the
scale in `[MIN_SCALE, MAX_SCALE]`; in particular repeated zoom-in calls never
exceed `MAX_SCALE` and repeated zoom-out calls never drop below `MIN_SCALE`. -/
theorem viewport_scale_clamping (v : Viewport) (ops : List ViewportOp)
    (h1 : VIEWPORT_CONFIG.MIN_SCALE ≤ v.scale) (h2 : v.scale ≤ VIEWPORT_CONFIG.MAX_SCALE) :
    VIEWPORT_CONFIG.MIN_SCALE ≤ (ops.foldl applyOp v).scale ∧
    (ops.foldl applyOp v).scale ≤ VIEWPORT_CONFIG.MAX_SCALE := by
  induction ops generalizing v with
  | nil => exact ⟨h1, h2⟩
  | cons op rest ih =>
    have hstep := applyOp_scale_bounds v op h1 h2
    simpa using ih (applyOp v op) hstep.1 hstep.2

/-- C2 witness: a concrete run of wheel-in, repeated button zoom-in, pan and
reset starting at the default scale 1. -/
theorem viewport_scale_clamping_witness :
    VIEWPORT_CONFIG.MIN_SCALE ≤
      (([ViewportOp.wheel ⟨10, 20⟩ false, ViewportOp.zoomInOp 800 600,
         ViewportOp.zoomInOp 800 600, ViewportOp.panOp 3 4,
         ViewportOp.zoomOutOp 800 600].foldl applyOp ⟨0, 0, 1⟩).scale) ∧
    (([ViewportOp.wheel ⟨10, 20⟩ false, ViewportOp.zoomInOp 800 600,
       ViewportOp.zoomInOp 800 600, ViewportOp.panOp 3 4,
       ViewportOp.zoomOutOp 800 600].foldl applyOp ⟨0, 0, 1⟩).scale) ≤
      VIEWPORT_CONFIG.MAX_SCALE :=
  viewport_scale_clamping ⟨0, 0, 1⟩ _
    (by norm_num [VIEWPORT_CONFIG.MIN_SCALE])
    (by norm_num [VIEWPORT_CONFIG.MAX_SCALE])

/-- C1: Zoom pivot invariance. For every viewport whose scale lies in
`[MIN_SCALE, MAX_SCALE]`, every screen pivot `p` and every zoom factor
(either a wheel notch or an arbitrary `zoomTo` target with center `p`), the
world coordinate `(p - offset) / scale` under the old transform equals the
world coordinate of `p` under the new transform. -/
theorem zoomAt_pivot_invariance (v : Viewport) (p : Point) (deltaYPos : Bool)
    (t cw ch : ℚ)
    (hmin : VIEWPORT_CONFIG.MIN_SCALE ≤ v.scale)
    (hmax : v.scale ≤ VIEWPORT_CONFIG.MAX_SCALE) :
    worldOf (handleWheel v p deltaYPos) p = worldOf v p ∧
    worldOf (zoomTo v t (some p) cw ch) p = worldOf v p := by
  have hkey : ∀ ns : ℚ, ns ≠ 0 →
      worldOf ⟨p.x - (p.x - v.x) / v.scale * ns, p.y - (p.y - v.y) / v.scale * ns, ns⟩ p =
        worldOf v p := by
    intro ns hns
    unfold worldOf
    have hx : p.x - (p.x - (p.x - v.x) / v.scale * ns) = (p.x - v.x) / v.scale * ns := by ring
    have hy : p.y - (p.y - (p.y - v.y) / v.scale * ns) = (p.y - v.y) / v.scale * ns := by ring
    simp only [hx, hy, mul_div_cancel_right₀ _ hns]
  have hclamp : ∀ s : ℚ,
      jsMax VIEWPORT_CONFIG.MIN_SCALE (jsMin VIEWPORT_CONFIG.MAX_SCALE s) ≠ 0 := by
    intro s
    rw [jsMax_eq]
    have hle : VIEWPORT_CONFIG.MIN_SCALE ≤
        max VIEWPORT_CONFIG.MIN_SCALE (jsMin VIEWPORT_CONFIG.MAX_SCALE s) := le_max_left _ _
    have hpos : (0 : ℚ) < VIEWPORT_CONFIG.MIN_SCALE := by norm_num [VIEWPORT_CONFIG.MIN_SCALE]
    exact ne_of_gt (lt_of_lt_of_le hpos hle)
  constructor
  · simp only [handleWheel]
    split_ifs
    all_goals first
      | rfl
      | exact hkey _ (hclamp _)
  · simp only [zoomTo]
    exact hkey _ (hclamp _)

/-- C1 witness: wheel zoom-in and a `zoomTo` toward pivot `(400,300)` from
the default viewport both leave the world point under the pivot fixed. -/
theorem zoomAt_pivot_invariance_witness :
    worldOf (handleWheel ⟨0, 0, 1⟩ ⟨400, 300⟩ false) ⟨400, 300⟩ =
      worldOf ⟨0, 0, 1⟩ ⟨400, 300⟩ ∧
    worldOf (zoomTo ⟨0, 0, 1⟩ 2 (some ⟨400, 300⟩) 800 600) ⟨400, 300⟩ =
      worldOf ⟨0, 0, 1⟩ ⟨400, 300⟩ :=
  zoomAt_pivot_invariance ⟨0, 0, 1⟩ ⟨400, 300⟩ false 2 800 600
    (by norm_num [VIEWPORT_CONFIG.MIN_SCALE])
    (by norm_num [VIEWPORT_CONFIG.MAX_SCALE])

/-- C8: Zoom round-trip. From scale 1 and offset `(0,0)`, zooming toward
pivot `(400,300)` by factor `1.2` (target scale `1 * 1.2` via `zoomTo`) and
then by factor `1/1.2` applied to the resulting scale returns the viewport
exactly to scale 1 and offset `(0,0)`. -/
theorem zoom_round_trip :
    zoomTo (zoomTo ⟨0, 0, 1⟩ (1 * (1.2 : ℚ)) (some ⟨400, 300⟩) 800 600)
      ((zoomTo ⟨0, 0, 1⟩ (1 * (1.2 : ℚ)) (some ⟨400, 300⟩) 800 600).scale * (1 / 1.2))
      (some ⟨400, 300⟩) 800 600 = ⟨0, 0, 1⟩ := by
  norm_num [zoomTo, jsMax, jsMin, VIEWPORT_CONFIG.MIN_SCALE, VIEWPORT_CONFIG.MAX_SCALE]

/-- C10: The zoom step factors are not mutual inverses. Away from the clamp
bounds, one wheel zoom-in (factor 1.1) followed by one wheel zoom-out
(factor 0.9) yields `0.99` times the original scale, and one button zoomIn
(factor 1.2) followed by one button zoomOut (factor 0.8) yields `0.96`
times the original scale. -/
theorem handleWheel_scale_in (v : Viewport) (mouse : Point) :
    (handleWheel v mouse false).scale =
      jsMax VIEWPORT_CONFIG.MIN_SCALE (jsMin VIEWPORT_CONFIG.MAX_SCALE
        (v.scale * VIEWPORT_CONFIG.WHEEL_ZOOM_IN_FACTOR)) := by
  rw [handleWheel_scale]
  simp

theorem handleWheel_scale_out (v : Viewport) (mouse : Point) :
    (handleWheel v mouse true).scale =
      jsMax VIEWPORT_CONFIG.MIN_SCALE (jsMin VIEWPORT_CONFIG.MAX_SCALE
        (v.scale * VIEWPORT_CONFIG.WHEEL_ZOOM_OUT_FACTOR)) := by
  rw [handleWheel_scale]
  simp

/-- C10: The zoom step factors are not mutual inverses. Away from the clamp
bounds, one wheel zoom-in (factor 1.1) followed by one wheel zoom-out
(factor 0.9) yields `0.99` times the original scale, and one button zoomIn
(factor 1.2) followed by one button zoomOut (factor 0.8) yields `0.96`
times the original scale. -/
theorem zoom_step_not_inverse (v : Viewport) (p : Point) (cw ch : ℚ)
    (hw1 : VIEWPORT_CONFIG.MIN_SCALE ≤
      v.scale * (VIEWPORT_CONFIG.WHEEL_ZOOM_IN_FACTOR * VIEWPORT_CONFIG.WHEEL_ZOOM_OUT_FACTOR))
    (hw2 : v.scale * VIEWPORT_CONFIG.WHEEL_ZOOM_IN_FACTOR ≤ VIEWPORT_CONFIG.MAX_SCALE)
    (hb1 : VIEWPORT_CONFIG.MIN_SCALE ≤
      v.scale * (VIEWPORT_CONFIG.ZOOM_IN_FACTOR * VIEWPORT_CONFIG.ZOOM_OUT_FACTOR))
    (hb2 : v.scale * VIEWPORT_CONFIG.ZOOM_IN_FACTOR ≤ VIEWPORT_CONFIG.MAX_SCALE) :
    (handleWheel (handleWheel v p false) p true).scale = (99 / 100) * v.scale ∧
    (zoomOut (zoomIn v cw ch) cw ch).scale = (24 / 25) * v.scale := by
  have hw1n := hw1
  have hw2n := hw2
  have hb1n := hb1
  have hb2n := hb2
  norm_num [VIEWPORT_CONFIG.MIN_SCALE, VIEWPORT_CONFIG.MAX_SCALE,
    VIEWPORT_CONFIG.WHEEL_ZOOM_IN_FACTOR, VIEWPORT_CONFIG.WHEEL_ZOOM_OUT_FACTOR,
    VIEWPORT_CONFIG.ZOOM_IN_FACTOR, VIEWPORT_CONFIG.ZOOM_OUT_FACTOR] at hw1n hw2n hb1n hb2n
  have hs : (0 : ℚ) < v.scale := by linarith
  constructor
  · have hA : v.scale * VIEWPORT_CONFIG.WHEEL_ZOOM_IN_FACTOR ≤ VIEWPORT_CONFIG.MAX_SCALE := hw2
    have hB : VIEWPORT_CONFIG.MIN_SCALE ≤ v.scale * VIEWPORT_CONFIG.WHEEL_ZOOM_IN_FACTOR := by
      simp only [VIEWPORT_CONFIG.MIN_SCALE, VIEWPORT_CONFIG.WHEEL_ZOOM_IN_FACTOR]
      norm_num
      linarith
    have hC : v.scale * VIEWPORT_CONFIG.WHEEL_ZOOM_IN_FACTOR *
        VIEWPORT_CONFIG.WHEEL_ZOOM_OUT_FACTOR ≤ VIEWPORT_CONFIG.MAX_SCALE := by
      simp only [VIEWPORT_CONFIG.MAX_SCALE, VIEWPORT_CONFIG.WHEEL_ZOOM_IN_FACTOR,
        VIEWPORT_CONFIG.WHEEL_ZOOM_OUT_FACTOR]
      norm_num
      linarith
    have hD : VIEWPORT_CONFIG.MIN_SCALE ≤ v.scale * VIEWPORT_CONFIG.WHEEL_ZOOM_IN_FACTOR *
        VIEWPORT_CONFIG.WHEEL_ZOOM_OUT_FACTOR := by
      simp only [VIEWPORT_CONFIG.MIN_SCALE, VIEWPORT_CONFIG.WHEEL_ZOOM_IN_FACTOR,
        VIEWPORT_CONFIG.WHEEL_ZOOM_OUT_FACTOR]
      norm_num
      linarith
    rw [handleWheel_scale_out, handleWheel_scale_in]
    simp only [jsMax_eq, jsMin_eq]
    rw [min_eq_right hA, max_eq_right hB, min_eq_right hC, max_eq_right hD]
    simp only [VIEWPORT_CONFIG.WHEEL_ZOOM_IN_FACTOR, VIEWPORT_CONFIG.WHEEL_ZOOM_OUT_FACTOR]
    norm_num
    ring
  · have hA : v.scale * VIEWPORT_CONFIG.ZOOM_IN_FACTOR ≤ VIEWPORT_CONFIG.MAX_SCALE := hb2
    have hD : VIEWPORT_CONFIG.MIN_SCALE ≤ v.scale * VIEWPORT_CONFIG.ZOOM_IN_FACTOR *
        VIEWPORT_CONFIG.ZOOM_OUT_FACTOR := by
      simp only [VIEWPORT_CONFIG.MIN_SCALE, VIEWPORT_CONFIG.ZOOM_IN_FACTOR,
        VIEWPORT_CONFIG.ZOOM_OUT_FACTOR]
      norm_num
      linarith
    rw [zoomOut_scale, zoomIn_scale]
    simp only [jsMax_eq, jsMin_eq]
    rw [min_eq_right hA, max_eq_right hD]
    simp only [VIEWPORT_CONFIG.ZOOM_IN_FACTOR, VIEWPORT_CONFIG.ZOOM_OUT_FACTOR]
    norm_num
    ring

/-- C10 witness: from scale 1, wheel in-then-out gives scale `0.99` and button
zoomIn-then-zoomOut gives scale `0.96`. -/
theorem zoom_step_not_inverse_witness :
    (handleWheel (handleWheel ⟨0, 0, 1⟩ ⟨0, 0⟩ false) ⟨0, 0⟩ true).scale = (99 / 100) * 1 ∧
    (zoomOut (zoomIn ⟨0, 0, 1⟩ 800 600) 800 600).scale = (24 / 25) * 1 :=
  zoom_step_not_inverse ⟨0, 0, 1⟩ ⟨0, 0⟩ 800 600
    (by norm_num [VIEWPORT_CONFIG.MIN_SCALE, VIEWPORT_CONFIG.WHEEL_ZOOM_IN_FACTOR,
        VIEWPORT_CONFIG.WHEEL_ZOOM_OUT_FACTOR])
    (by norm_num [VIEWPORT_CONFIG.MAX_SCALE, VIEWPORT_CONFIG.WHEEL_ZOOM_IN_FACTOR])
    (by norm_num [VIEWPORT_CONFIG.MIN_SCALE, VIEWPORT_CONFIG.ZOOM_IN_FACTOR,
        VIEWPORT_CONFIG.ZOOM_OUT_FACTOR])
    (by norm_num [VIEWPORT_CONFIG.MAX_SCALE, VIEWPORT_CONFIG.ZOOM_IN_FACTOR])

/-- The result of `FactoryRenderer.scaleAndCenter` (FactoryRenderer.js lines
134-166): the uniform scale applied to the shape and the new shape origin. -/
structure ScaleCenterResult where
  scale : ℚ
  x : ℚ
  y : ℚ
deriving DecidableEq, Repr

/-- `FactoryRenderer.scaleAndCenter`: `bounds` is the shape's rendered
bounding box (from `getBounds()`), the container dimensions come from
`app.screen`, and `containerRatio` defaults to
`GRAPHICS_CONFIG.CONTAINER_SCALE_RATIO = 0.9` in the source. The scale is
the smaller of the two per-axis target ratios and the origin is moved to
the container center. -/
def scaleAndCenter (bounds : Bounds) (containerWidth containerHeight containerRatio : ℚ) :
    ScaleCenterResult :=
  let targetWidth := containerWidth * containerRatio
  let targetHeight := containerHeight * containerRatio
  let scaleX := targetWidth / bounds.width
  let scaleY := targetHeight / bounds.height
  let scale := jsMin scaleX scaleY
  { scale := scale, x := containerWidth / 2, y := containerHeight / 2 }

/-- C9: `scaleAndCenter` postcondition. For every bounding box of positive
width and height, the computed uniform scale makes both scaled box dimensions
fit within `containerRatio` of the container (hence in particular the larger
one fits), one of them exactly, and the shape origin is moved to the
container center. -/
theorem scaleAndCenter_postcondition (bounds : Bounds) (cw ch r : ℚ)
    (hw : 0 < bounds.width) (hh : 0 < bounds.height) :
    (scaleAndCenter bounds cw ch r).scale * bounds.width ≤ cw * r ∧
    (scaleAndCenter bounds cw ch r).scale * bounds.height ≤ ch * r ∧
    ((scaleAndCenter bounds cw ch r).scale * bounds.width = cw * r ∨
     (scaleAndCenter bounds cw ch r).scale * bounds.height = ch * r) ∧
    (scaleAndCenter bounds cw ch r).x = cw / 2 ∧
    (scaleAndCenter bounds cw ch r).y = ch / 2 := by
  simp only [scaleAndCenter, jsMin_eq]
  refine ⟨?_, ?_, ?_, trivial, trivial⟩
  · have hmin := min_le_left (cw * r / bounds.width) (ch * r / bounds.height)
    exact (le_div_iff₀ hw).mp hmin
  · have hmin := min_le_right (cw * r / bounds.width) (ch * r / bounds.height)
    exact (le_div_iff₀ hh).mp hmin
  · rcases le_total (cw * r / bounds.width) (ch * r / bounds.height) with hle | hle
    · left
      rw [min_eq_left hle, div_mul_cancel₀ _ (ne_of_gt hw)]
    · right
      rw [min_eq_right hle, div_mul_cancel₀ _ (ne_of_gt hh)]

/-- C9 witness: a 200 by 100 bounding box in an 800 by 600 container with the
default fill ratio 0.9. -/
theorem scaleAndCenter_postcondition_witness :
    (scaleAndCenter ⟨0, 0, 200, 100⟩ 800 600 0.9).scale * (200 : ℚ) ≤ 800 * 0.9 ∧
    (scaleAndCenter ⟨0, 0, 200, 100⟩ 800 600 0.9).scale * (100 : ℚ) ≤ 600 * 0.9 ∧
    ((scaleAndCenter ⟨0, 0, 200, 100⟩ 800 600 0.9).scale * (200 : ℚ) = 800 * 0.9 ∨
     (scaleAndCenter ⟨0, 0, 200, 100⟩ 800 600 0.9).scale * (100 : ℚ) = 600 * 0.9) ∧
    (scaleAndCenter ⟨0, 0, 200, 100⟩ 800 600 0.9).x = 800 / 2 ∧
    (scaleAndCenter ⟨0, 0, 200, 100⟩ 800 600 0.9).y = 600 / 2 :=
  scaleAndCenter_postcondition ⟨0, 0, 200, 100⟩ 800 600 0.9
    (by norm_num) (by norm_num)

/-- A drawable shape handle; only the pivot is modelled, the remaining
presentation attributes live in the external rendering library. -/
structure Graphic where
  pivot : Point
deriving DecidableEq, Repr

/-- The pivot assignment of `FactoryRenderer.create` (FactoryRenderer.js
lines 21-65): the factory shape's pivot is set to
`calculateGeometricCenter(points)`, the vertex average; an exception from
the center computation propagates. -/
def FactoryRenderer_create (points : List Point) : Except String Graphic :=
  match calculateGeometricCenter points with
  | Except.error e => Except.error e
  | Except.ok factoryCenter => Except.ok ⟨factoryCenter⟩

/-- The pivot assignment of `PolygonRenderer.create` (PolygonRenderer.js):
the polygon's pivot is set to `calculatePolygonCenter(points)`, the
area-weighted centroid; an exception from the center computation
propagates. -/
def PolygonRenderer_create (points : List Point) : Except String Graphic :=
  match calculatePolygonCenter points with
  | Except.error e => Except.error e
  | Except.ok center => Except.ok ⟨center⟩

/-- C7: Pivot asymmetry. The factory constructor pivots at the vertex average
(`calculateGeometricCenter`) and the polygon constructor pivots at the
area-weighted centroid (`calculatePolygonCenter`); on the factory's own
vertex list the two pivots differ, so the asymmetry is observable. -/
theorem pivot_asymmetry :
    (∀ ps c, calculateGeometricCenter ps = Except.ok c →
      FactoryRenderer_create ps = Except.ok ⟨c⟩) ∧
    (∀ ps c, calculatePolygonCenter ps = Except.ok c →
      PolygonRenderer_create ps = Except.ok ⟨c⟩) ∧
    FactoryRenderer_create GRAPHICS_CONFIG.FACTORY_POINTS ≠
      PolygonRenderer_create GRAPHICS_CONFIG.FACTORY_POINTS := by
  refine ⟨?_, ?_, ?_⟩
  · intro ps c hc
    simp [FactoryRenderer_create, hc]
  · intro ps c hc
    simp [PolygonRenderer_create, hc]
  · have hgeo : calculateGeometricCenter GRAPHICS_CONFIG.FACTORY_POINTS =
        Except.ok ⟨1930 / 19, 1730 / 19⟩ := by
      simp only [calculateGeometricCenter, GRAPHICS_CONFIG.FACTORY_POINTS]
      norm_num
    have hcen : calculatePolygonCenter GRAPHICS_CONFIG.FACTORY_POINTS =
        Except.ok ⟨212330 / 2319, 213500 / 2319⟩ := by
      simp only [calculatePolygonCenter, shoelaceFold, jsAbs, GRAPHICS_CONFIG.FACTORY_POINTS]
      norm_num [List.range_succ, List.getD]
    simp only [FactoryRenderer_create, PolygonRenderer_create, hgeo, hcen]
    simp only [ne_eq, Except.ok.injEq, Graphic.mk.injEq, Point.mk.injEq]
    norm_num

/-- C7 witness: the concrete pivots of the default factory shape (vertex
average) and the default polygon (area-weighted centroid). -/
theorem pivot_asymmetry_witness :
    FactoryRenderer_create GRAPHICS_CONFIG.FACTORY_POINTS =
      Except.ok ⟨⟨1930 / 19, 1730 / 19⟩⟩ ∧
    PolygonRenderer_create GRAPHICS_CONFIG.DEFAULT_POLYGON_POINTS =
      Except.ok ⟨⟨6320 / 129, 2065 / 43⟩⟩ := by
  constructor
  · refine pivot_asymmetry.1 GRAPHICS_CONFIG.FACTORY_POINTS ⟨1930 / 19, 1730 / 19⟩ ?_
    simp only [calculateGeometricCenter, GRAPHICS_CONFIG.FACTORY_POINTS]
    norm_num
  · refine pivot_asymmetry.2.1 GRAPHICS_CONFIG.DEFAULT_POLYGON_POINTS ⟨6320 / 129, 2065 / 43⟩ ?_
    simp only [calculatePolygonCenter, shoelaceFold, jsAbs, GRAPHICS_CONFIG.DEFAULT_POLYGON_POINTS]
    norm_num [List.range_succ, List.getD]

/-- The StateManager: a state object (a finite map from field names of type
`K` to optional values of type `V`, matching a JS object) together with the
registered subscriber callbacks. A callback receives the (new, old) state
snapshots and either finishes normally or throws. -/
structure StateManager (K V : Type) where
  state : K → Option V
  subscribers : List ((K → Option V) → (K → Option V) → Except String Unit)

/-- `StateManager.notifySubscribers` (lines 108-116): iterates over the
subscriber list in registration order; each callback is invoked exactly once
inside a try/catch, a thrown error being caught and logged (`some message`
in the returned log) and iteration continuing with the next subscriber. No
exception escapes to the caller. -/
def notifySubscribers {K V : Type}
    (subs : List ((K → Option V) → (K → Option V) → Except String Unit))
    (newState oldState : K → Option V) : List (Option String) :=
  match subs with
  | [] => []
  | callback :: rest =>
    (match callback newState oldState with
     | Except.ok _ => none
     | Except.error e => some e) :: notifySubscribers rest newState oldState

/-- `StateManager.setState` (lines 56-60): snapshots the old state, merges
the given fields into the state in one step (JS object spread, given fields
winning), then notifies all subscribers with the (new, old) snapshots.
Returns the updated manager and the log of caught subscriber errors. -/
def setState {K V : Type} (m : StateManager K V) (newState : K → Option V) :
    StateManager K V × List (Option String) :=
  let oldState := m.state
  let merged := fun k =>
    match newState k with
    | some v => some v
    | none => oldState k
  (⟨merged, m.subscribers⟩, notifySubscribers m.subscribers merged oldState)

theorem notifySubscribers_length {K V : Type}
    (subs : List ((K → Option V) → (K → Option V) → Except String Unit))
    (ns os : K → Option V) :
    (notifySubscribers subs ns os).length = subs.length := by
  induction subs with
  | nil => rfl
  | cons callback rest ih => simp [notifySubscribers, ih]

theorem notifySubscribers_getD {K V : Type}
    (subs : List ((K → Option V) → (K → Option V) → Except String Unit))
    (ns os : K → Option V) (i : ℕ) (h : i < subs.length) :
    (notifySubscribers subs ns os).getD i none =
      match (subs.getD i (fun _ _ => Except.ok ())) ns os with
      | Except.ok _ => none
      | Except.error e => some e := by
  induction subs generalizing i with
  | nil => simp at h
  | cons callback rest ih =>
    cases i with
    | zero => simp [notifySubscribers]
    | succ n =>
      simp only [notifySubscribers, List.getD_cons_succ]
      exact ih n (by simpa using h)

/-- C6: State-container notification contract. A `setState` call merges the
given fields into the state in one step (a given field wins, an absent field
keeps its old value), keeps the subscriber list, and produces exactly one log
entry per registered subscriber, in registration order; the entry for
subscriber `i` is the outcome of invoking that subscriber once with the
(new, old) snapshots, a thrown error being caught and logged so that later
subscribers still run and no exception reaches the caller. -/
theorem setState_notification_contract {K V : Type} (m : StateManager K V)
    (p : K → Option V) :
    (∀ k v, p k = some v → (setState m p).1.state k = some v) ∧
    (∀ k, p k = none → (setState m p).1.state k = m.state k) ∧
    (setState m p).1.subscribers = m.subscribers ∧
    (setState m p).2.length = m.subscribers.length ∧
    (∀ i, i < m.subscribers.length →
      (setState m p).2.getD i none =
        match (m.subscribers.getD i (fun _ _ => Except.ok ()))
            (setState m p).1.state m.state with
        | Except.ok _ => none
        | Except.error e => some e) := by
  refine ⟨?_, ?_, rfl, notifySubscribers_length _ _ _, ?_⟩
  · intro k v hk
    simp [setState, hk]
  · intro k hk
    simp [setState, hk]
  · intro i hi
    exact notifySubscribers_getD m.subscribers _ m.state i hi

/-- A demo manager for the C6 witness: two subscribers, the first throwing. -/
def stateManagerDemo : StateManager ℕ ℚ where
  state := fun _ => some 0
  subscribers :=
    [fun _ _ => Except.error "subscriber one failed",
     fun _ _ => Except.ok ()]

/-- The update record for the C6 witness: sets field 0 to 7. -/
def patchDemo : ℕ → Option ℚ := fun k => if k = 0 then some 7 else none

/-- C6 witness: on the demo manager the first subscriber throws and its error
is logged, while the second subscriber is still invoked and succeeds. -/
theorem setState_notification_contract_witness :
    (setState stateManagerDemo patchDemo).2.getD 0 none = some "subscriber one failed" ∧
    (setState stateManagerDemo patchDemo).2.getD 1 none = none := by
  have hlog := (setState_notification_contract stateManagerDemo patchDemo).2.2.2.2
  constructor
  · have h0 := hlog 0 (by simp [stateManagerDemo])
    simpa [stateManagerDemo] using h0
  · have h1 := hlog 1 (by simp [stateManagerDemo])
    simpa [stateManagerDemo] using h1
